import Mathlib

/-!
Shallow embedding of `src/ai-ml-platform/feast/data-sources/feature-definitions.py`:
a declarative Feast configuration module.  The data model (Entity, Feature,
FeatureView, FeatureService, data sources) is embedded as Lean structures, the
module-level registries as literal lists, and `apply_feature_definitions`
together with the `__main__` block as pure functions over an abstract store:
the store handle is modelled by its `apply` operation, a state-passing function
`Collection → σ → Except ε σ` that either succeeds with a new store state or
raises an error.  The embedding makes the observable behaviour explicit: the
sequence of `store.apply` calls made and the lines printed.
-/

namespace FeatureDefinitions

/-- `feast.ValueType` members used by the module. -/
inductive ValueType where
  | INT64
  | STRING
  | FLOAT
  | BOOL
deriving DecidableEq, Repr

/-- `feast.Feature`: the stream-source schema entries omit `description`,
matching the Python keyword default. -/
structure Feature where
  name : String
  dtype : ValueType
  description : String := ""
deriving DecidableEq, Repr

/-- `feast.Entity`. -/
structure Entity where
  name : String
  value_type : ValueType
  description : String
  tags : List (String × String)
deriving DecidableEq, Repr

/-- A data source is either a `feast.FileSource` or a
`feast.data_source.RequestSource`. -/
inductive DataSource where
  | fileSource (name path timestamp_field created_timestamp_column description : String)
      (tags : List (String × String))
  | requestSource (name : String) (schema : List Feature) (description : String)
deriving DecidableEq, Repr

/-- `datetime.timedelta(days=d)` as a number of seconds. -/
def timedeltaDays (d : Int) : Int := d * 86400

/-- `datetime.timedelta(hours=h)` as a number of seconds. -/
def timedeltaHours (h : Int) : Int := h * 3600

/-- `feast.FeatureView`; `ttl` is the duration in seconds. -/
structure FeatureView where
  name : String
  entities : List String
  ttl : Int
  features : List Feature
  online : Bool
  batch_source : DataSource
  tags : List (String × String)
deriving DecidableEq, Repr

/-- The projection `view[["f1", "f2"]]` used in feature-service declarations:
a feature view together with the selected feature names. -/
structure FeatureViewProjection where
  view : FeatureView
  features : List String
deriving DecidableEq, Repr

/-- Python `fv[[...]]` subscripting on a feature view. -/
def FeatureView.select (fv : FeatureView) (names : List String) : FeatureViewProjection :=
  ⟨fv, names⟩

/-- `feast.FeatureService`. -/
structure FeatureService where
  name : String
  features : List FeatureViewProjection
  tags : List (String × String)
deriving DecidableEq, Repr

-- ===========================================================================
-- ENTITIES
-- ===========================================================================

def user_entity : Entity :=
  { name := "user_id"
    value_type := ValueType.INT64
    description := "Unique identifier for users/customers"
    tags := [("team", "customer_analytics"), ("domain", "user")] }

def driver_entity : Entity :=
  { name := "driver_id"
    value_type := ValueType.INT64
    description := "Unique identifier for drivers"
    tags := [("team", "driver_analytics"), ("domain", "driver")] }

def product_entity : Entity :=
  { name := "product_id"
    value_type := ValueType.STRING
    description := "Unique identifier for products"
    tags := [("team", "product_analytics"), ("domain", "product")] }

def location_entity : Entity :=
  { name := "location_id"
    value_type := ValueType.INT64
    description := "Unique identifier for geographical locations"
    tags := [("team", "geo_analytics"), ("domain", "location")] }

-- ===========================================================================
-- DATA SOURCES
-- ===========================================================================

def user_activity_source : DataSource :=
  DataSource.fileSource "user_activity_source"
    "s3://ai-ml-platform-ml-dev-datasets/feast/user_activity/"
    "event_timestamp" "created_timestamp"
    "User activity and engagement metrics"
    [("source", "user_events"), ("format", "parquet")]

def driver_performance_source : DataSource :=
  DataSource.fileSource "driver_performance_source"
    "s3://ai-ml-platform-ml-dev-datasets/feast/driver_performance/"
    "event_timestamp" "created_timestamp"
    "Driver performance and behavior metrics"
    [("source", "driver_events"), ("format", "parquet")]

def product_catalog_source : DataSource :=
  DataSource.fileSource "product_catalog_source"
    "s3://ai-ml-platform-ml-dev-datasets/feast/product_catalog/"
    "event_timestamp" "created_timestamp"
    "Product information and metadata"
    [("source", "product_catalog"), ("format", "parquet")]

def transaction_source : DataSource :=
  DataSource.fileSource "transaction_source"
    "s3://ai-ml-platform-ml-dev-datasets/feast/transactions/"
    "event_timestamp" "created_timestamp"
    "Financial transaction data"
    [("source", "transactions"), ("format", "parquet")]

def user_activity_stream_source : DataSource :=
  DataSource.requestSource "user_activity_stream_source"
    [ { name := "current_session_duration", dtype := ValueType.INT64 },
      { name := "pages_viewed_session", dtype := ValueType.INT64 },
      { name := "current_device_type", dtype := ValueType.STRING } ]
    "Real-time user activity for current session"

-- ===========================================================================
-- FEATURE VIEWS
-- ===========================================================================

def user_engagement_features : FeatureView :=
  { name := "user_engagement_features"
    entities := ["user_id"]
    ttl := timedeltaDays 7
    features :=
      [ { name := "total_sessions_7d", dtype := ValueType.INT64,
          description := "Total sessions in last 7 days" },
        { name := "avg_session_duration_7d", dtype := ValueType.FLOAT,
          description := "Average session duration in last 7 days (minutes)" },
        { name := "total_page_views_7d", dtype := ValueType.INT64,
          description := "Total page views in last 7 days" },
        { name := "unique_pages_viewed_7d", dtype := ValueType.INT64,
          description := "Unique pages viewed in last 7 days" },
        { name := "bounce_rate_7d", dtype := ValueType.FLOAT,
          description := "Bounce rate in last 7 days" },
        { name := "conversion_rate_7d", dtype := ValueType.FLOAT,
          description := "Conversion rate in last 7 days" },
        { name := "last_activity_hours_ago", dtype := ValueType.FLOAT,
          description := "Hours since last activity" } ]
    online := true
    batch_source := user_activity_source
    tags := [("team", "growth"), ("category", "engagement")] }

def user_demographics_features : FeatureView :=
  { name := "user_demographics_features"
    entities := ["user_id"]
    ttl := timedeltaDays 30
    features :=
      [ { name := "age_group", dtype := ValueType.STRING,
          description := "User age group (18-25, 26-35, etc.)" },
        { name := "country", dtype := ValueType.STRING,
          description := "User country" },
        { name := "city", dtype := ValueType.STRING,
          description := "User city" },
        { name := "signup_days_ago", dtype := ValueType.INT64,
          description := "Days since user signup" },
        { name := "is_premium_user", dtype := ValueType.BOOL,
          description := "Whether user has premium subscription" },
        { name := "preferred_language", dtype := ValueType.STRING,
          description := "User preferred language" } ]
    online := true
    batch_source := user_activity_source
    tags := [("team", "customer_success"), ("category", "demographics")] }

def driver_performance_features : FeatureView :=
  { name := "driver_performance_features"
    entities := ["driver_id"]
    ttl := timedeltaDays 1
    features :=
      [ { name := "avg_rating_30d", dtype := ValueType.FLOAT,
          description := "Average driver rating in last 30 days" },
        { name := "total_trips_30d", dtype := ValueType.INT64,
          description := "Total trips completed in last 30 days" },
        { name := "total_earnings_30d", dtype := ValueType.FLOAT,
          description := "Total earnings in last 30 days" },
        { name := "acceptance_rate_30d", dtype := ValueType.FLOAT,
          description := "Trip acceptance rate in last 30 days" },
        { name := "cancellation_rate_30d", dtype := ValueType.FLOAT,
          description := "Trip cancellation rate in last 30 days" },
        { name := "avg_trip_duration_30d", dtype := ValueType.FLOAT,
          description := "Average trip duration in last 30 days (minutes)" },
        { name := "peak_hours_activity_30d", dtype := ValueType.FLOAT,
          description := "Percentage of activity during peak hours" } ]
    online := true
    batch_source := driver_performance_source
    tags := [("team", "driver_ops"), ("category", "performance")] }

def product_features : FeatureView :=
  { name := "product_features"
    entities := ["product_id"]
    ttl := timedeltaDays 1
    features :=
      [ { name := "category", dtype := ValueType.STRING,
          description := "Product category" },
        { name := "price", dtype := ValueType.FLOAT,
          description := "Current product price" },
        { name := "discount_percentage", dtype := ValueType.FLOAT,
          description := "Current discount percentage" },
        { name := "avg_rating", dtype := ValueType.FLOAT,
          description := "Average product rating" },
        { name := "total_reviews", dtype := ValueType.INT64,
          description := "Total number of reviews" },
        { name := "inventory_count", dtype := ValueType.INT64,
          description := "Current inventory count" },
        { name := "is_trending", dtype := ValueType.BOOL,
          description := "Whether product is currently trending" },
        { name := "days_since_launch", dtype := ValueType.INT64,
          description := "Days since product launch" } ]
    online := true
    batch_source := product_catalog_source
    tags := [("team", "product"), ("category", "catalog")] }

def transaction_features : FeatureView :=
  { name := "transaction_features"
    entities := ["user_id"]
    ttl := timedeltaDays 7
    features :=
      [ { name := "total_spent_7d", dtype := ValueType.FLOAT,
          description := "Total amount spent in last 7 days" },
        { name := "total_spent_30d", dtype := ValueType.FLOAT,
          description := "Total amount spent in last 30 days" },
        { name := "transaction_count_7d", dtype := ValueType.INT64,
          description := "Number of transactions in last 7 days" },
        { name := "transaction_count_30d", dtype := ValueType.INT64,
          description := "Number of transactions in last 30 days" },
        { name := "avg_transaction_amount_30d", dtype := ValueType.FLOAT,
          description := "Average transaction amount in last 30 days" },
        { name := "max_transaction_amount_30d", dtype := ValueType.FLOAT,
          description := "Maximum transaction amount in last 30 days" },
        { name := "unique_merchants_30d", dtype := ValueType.INT64,
          description := "Number of unique merchants in last 30 days" },
        { name := "failed_transactions_7d", dtype := ValueType.INT64,
          description := "Number of failed transactions in last 7 days" } ]
    online := true
    batch_source := transaction_source
    tags := [("team", "payments"), ("category", "transactions")] }

def user_session_features : FeatureView :=
  { name := "user_session_features"
    entities := ["user_id"]
    ttl := timedeltaHours 1
    features :=
      [ { name := "current_session_duration", dtype := ValueType.INT64,
          description := "Current session duration in minutes" },
        { name := "pages_viewed_session", dtype := ValueType.INT64,
          description := "Pages viewed in current session" },
        { name := "current_device_type", dtype := ValueType.STRING,
          description := "Device type for current session" } ]
    online := true
    batch_source := user_activity_stream_source
    tags := [("team", "real_time"), ("category", "session")] }

-- ===========================================================================
-- FEATURE SERVICES (for model serving)
-- ===========================================================================

def recommendation_feature_service : FeatureService :=
  { name := "recommendation_v1"
    features :=
      [ user_engagement_features.select
          ["total_sessions_7d", "avg_session_duration_7d", "conversion_rate_7d"],
        user_demographics_features.select
          ["age_group", "country", "is_premium_user"],
        transaction_features.select
          ["total_spent_30d", "avg_transaction_amount_30d"],
        product_features.select
          ["category", "price", "avg_rating", "is_trending"] ]
    tags := [("model", "recommendation"), ("version", "v1")] }

def fraud_detection_feature_service : FeatureService :=
  { name := "fraud_detection_v1"
    features :=
      [ transaction_features.select
          ["transaction_count_7d", "avg_transaction_amount_30d", "failed_transactions_7d"],
        user_demographics_features.select
          ["country", "signup_days_ago"],
        user_session_features.select
          ["current_device_type"] ]
    tags := [("model", "fraud_detection"), ("version", "v1")] }

def driver_matching_feature_service : FeatureService :=
  { name := "driver_matching_v1"
    features :=
      [ driver_performance_features.select
          ["avg_rating_30d", "acceptance_rate_30d", "total_trips_30d"] ]
    tags := [("model", "driver_matching"), ("version", "v1")] }

def churn_prediction_feature_service : FeatureService :=
  { name := "churn_prediction_v1"
    features :=
      [ user_engagement_features.select
          ["total_sessions_7d", "last_activity_hours_ago", "bounce_rate_7d"],
        user_demographics_features.select
          ["signup_days_ago", "is_premium_user"],
        transaction_features.select
          ["transaction_count_30d", "total_spent_30d"] ]
    tags := [("model", "churn_prediction"), ("version", "v1")] }

-- ===========================================================================
-- FEATURE STORE REGISTRY
-- ===========================================================================

/-- List of all entities. -/
def ENTITIES : List Entity :=
  [ user_entity,
    driver_entity,
    product_entity,
    location_entity ]

/-- List of all feature views. -/
def FEATURE_VIEWS : List FeatureView :=
  [ user_engagement_features,
    user_demographics_features,
    driver_performance_features,
    product_features,
    transaction_features,
    user_session_features ]

/-- List of all feature services. -/
def FEATURE_SERVICES : List FeatureService :=
  [ recommendation_feature_service,
    fraud_detection_feature_service,
    driver_matching_feature_service,
    churn_prediction_feature_service ]

/-- List of all data sources. -/
def DATA_SOURCES : List DataSource :=
  [ user_activity_source,
    driver_performance_source,
    product_catalog_source,
    transaction_source,
    user_activity_stream_source ]

-- ===========================================================================
-- apply_feature_definitions and the __main__ block
-- ===========================================================================

/-- The kinds of collection that can be handed to `store.apply`. -/
inductive Collection where
  | entities (es : List Entity)
  | featureViews (vs : List FeatureView)
  | featureServices (ss : List FeatureService)
  | dataSources (ds : List DataSource)
deriving DecidableEq, Repr

/-- Observable behaviour of a run of `apply_feature_definitions`: the
arguments of the `store.apply` calls made (in order), the lines printed to
standard output (in order), and the final outcome (the resulting store state,
or the store error that propagated to the caller). -/
structure RunResult (σ ε : Type) where
  calls : List Collection
  output : List String
  result : Except ε σ
deriving Repr

/-- `apply_feature_definitions(store)`: three sequential `store.apply` calls
interleaved with prints.  The store handle is represented by its `apply`
operation `applyFn : Collection → σ → Except ε σ` and its initial state; an
error raised by any `store.apply` aborts the run at that point and propagates
unchanged. -/
def apply_feature_definitions {σ ε : Type} (applyFn : Collection → σ → Except ε σ)
    (store : σ) : RunResult σ ε :=
  match applyFn (Collection.entities ENTITIES) store with
  | Except.error e =>
      ⟨[Collection.entities ENTITIES], ["Applying entities..."], Except.error e⟩
  | Except.ok s1 =>
      match applyFn (Collection.featureViews FEATURE_VIEWS) s1 with
      | Except.error e =>
          ⟨[Collection.entities ENTITIES, Collection.featureViews FEATURE_VIEWS],
           ["Applying entities...", "Applying feature views..."], Except.error e⟩
      | Except.ok s2 =>
          match applyFn (Collection.featureServices FEATURE_SERVICES) s2 with
          | Except.error e =>
              ⟨[Collection.entities ENTITIES, Collection.featureViews FEATURE_VIEWS,
                Collection.featureServices FEATURE_SERVICES],
               ["Applying entities...", "Applying feature views...",
                "Applying feature services..."], Except.error e⟩
          | Except.ok s3 =>
              ⟨[Collection.entities ENTITIES, Collection.featureViews FEATURE_VIEWS,
                Collection.featureServices FEATURE_SERVICES],
               ["Applying entities...", "Applying feature views...",
                "Applying feature services...",
                "Feature definitions applied successfully!"], Except.ok s3⟩

/-- The three registration calls, in source order. -/
def registrationCalls : List Collection :=
  [Collection.entities ENTITIES, Collection.featureViews FEATURE_VIEWS,
   Collection.featureServices FEATURE_SERVICES]

/-- The summary block printed by `__main__` after a successful registration. -/
def summaryOutput : List String :=
  [ "\nFeature Store Summary:",
    "Entities: " ++ toString (List.length ENTITIES),
    "Feature Views: " ++ toString (List.length FEATURE_VIEWS),
    "Feature Services: " ++ toString (List.length FEATURE_SERVICES),
    "Data Sources: " ++ toString (List.length DATA_SOURCES) ]

/-- Observable behaviour of the `__main__` block: the repo path the store was
constructed with, the `store.apply` calls made, all lines printed, and the
final outcome. -/
structure MainResult (σ ε : Type) where
  repo_path : String
  calls : List Collection
  output : List String
  result : Except ε σ
deriving Repr

/-- The `__main__` block: construct a store rooted at the current working
directory (`FeatureStore(repo_path=".")`, modelled by a constructor
`mkStore : String → σ`), run `apply_feature_definitions` on it, then print the
summary.  If registration raises, the exception is uncaught and the summary is
never printed. -/
def mainBlock {σ ε : Type} (mkStore : String → σ)
    (applyFn : Collection → σ → Except ε σ) : MainResult σ ε :=
  let store := mkStore "."
  let r := apply_feature_definitions applyFn store
  match r.result with
  | Except.ok s => ⟨".", r.calls, r.output ++ summaryOutput, Except.ok s⟩
  | Except.error e => ⟨".", r.calls, r.output, Except.error e⟩

/-- A store whose `apply` always succeeds (a mock store), used to exercise the
theorems on a concrete handle. -/
def okStore : Collection → Unit → Except Unit Unit :=
  fun _ _ => Except.ok ()

/-- A store whose `apply` always raises error `7`. -/
def failStore : Collection → Unit → Except Nat Unit :=
  fun _ _ => Except.error 7

/-- A store that raises error `3` on the feature-view collection and succeeds
on everything else. -/
def failOnViewsStore : Collection → Unit → Except Nat Unit :=
  fun c _ =>
    match c with
    | Collection.featureViews _ => Except.error 3
    | _ => Except.ok ()

-- ===========================================================================
-- Theorems
-- ===========================================================================

/-- C1: for every store handle on which registration succeeds,
`apply_feature_definitions` invokes `store.apply` exactly three times, in this
exact order: first with `ENTITIES`, then with `FEATURE_VIEWS`, then with
`FEATURE_SERVICES`. -/
theorem apply_order {σ ε : Type} (applyFn : Collection → σ → Except ε σ) (store : σ)
    (h : ∃ s, (apply_feature_definitions applyFn store).result = Except.ok s) :
    (apply_feature_definitions applyFn store).calls = registrationCalls := by
  obtain ⟨s, hs⟩ := h
  unfold apply_feature_definitions at hs ⊢
  cases h1 : applyFn (Collection.entities ENTITIES) store with
  | error e => simp [h1] at hs
  | ok s1 =>
    cases h2 : applyFn (Collection.featureViews FEATURE_VIEWS) s1 with
    | error e => simp [h1, h2] at hs
    | ok s2 =>
      cases h3 : applyFn (Collection.featureServices FEATURE_SERVICES) s2 with
      | error e => simp [h1, h2, h3] at hs
      | ok s3 => simp [h1, h2, h3, registrationCalls]

/-- Witness for C1: a mock store that always succeeds records the three calls
in entity, feature-view, feature-service order. -/
theorem apply_order_witness :
    (apply_feature_definitions okStore ()).result = Except.ok () ∧
    (apply_feature_definitions okStore ()).calls = registrationCalls :=
  ⟨rfl, apply_order okStore () ⟨(), rfl⟩⟩

/-- C2: every (feature view, feature-name) selection made by a feature service
in `FEATURE_SERVICES` selects a name that exists in the feature list of the
referenced feature view. -/
theorem service_selections_valid :
    ∀ fs ∈ FEATURE_SERVICES, ∀ p ∈ fs.features, ∀ n ∈ p.features,
      n ∈ List.map Feature.name p.view.features := by decide

/-- Witness for C2: `recommendation_v1` selects `total_sessions_7d` from
`user_engagement_features`, and that name is indeed one of the view's
features. -/
theorem service_selections_valid_witness :
    "total_sessions_7d" ∈ List.map Feature.name user_engagement_features.features :=
  service_selections_valid recommendation_feature_service (List.Mem.head _)
    (user_engagement_features.select
      ["total_sessions_7d", "avg_session_duration_7d", "conversion_rate_7d"])
    (List.Mem.head _) "total_sessions_7d" (List.Mem.head _)

/-- C3: every entity name listed in the `entities` field of a feature view in
`FEATURE_VIEWS` is the name of some entity in `ENTITIES`. -/
theorem view_entities_registered :
    ∀ fv ∈ FEATURE_VIEWS, ∀ en ∈ fv.entities, en ∈ List.map Entity.name ENTITIES := by
  decide

/-- Witness for C3: `user_engagement_features` joins on `user_id`, which is a
registered entity name. -/
theorem view_entities_registered_witness :
    "user_id" ∈ List.map Entity.name ENTITIES :=
  view_entities_registered user_engagement_features (List.Mem.head _)
    "user_id" (List.Mem.head _)

/-- C4: distinct entities in `ENTITIES` have distinct names. -/
theorem entity_names_unique :
    ∀ e1 ∈ ENTITIES, ∀ e2 ∈ ENTITIES, e1 ≠ e2 → e1.name ≠ e2.name := by decide

/-- Witness for C4: `user_entity` and `driver_entity` are distinct and their
names differ. -/
theorem entity_names_unique_witness : user_entity.name ≠ driver_entity.name :=
  entity_names_unique user_entity (List.Mem.head _)
    driver_entity (List.Mem.tail _ (List.Mem.head _)) (by decide)

/-- C5: if `store.apply` raises at any of the three registration steps, the
store's error propagates unchanged to the caller, no subsequent `store.apply`
call is made after the failing one, and there is no retry or rollback (the run
ends right there). -/
theorem apply_error_propagation {σ ε : Type} (applyFn : Collection → σ → Except ε σ)
    (store : σ) :
    (∀ e, applyFn (Collection.entities ENTITIES) store = Except.error e →
      apply_feature_definitions applyFn store =
        ⟨[Collection.entities ENTITIES], ["Applying entities..."], Except.error e⟩) ∧
    (∀ s1 e, applyFn (Collection.entities ENTITIES) store = Except.ok s1 →
      applyFn (Collection.featureViews FEATURE_VIEWS) s1 = Except.error e →
      apply_feature_definitions applyFn store =
        ⟨[Collection.entities ENTITIES, Collection.featureViews FEATURE_VIEWS],
         ["Applying entities...", "Applying feature views..."], Except.error e⟩) ∧
    (∀ s1 s2 e, applyFn (Collection.entities ENTITIES) store = Except.ok s1 →
      applyFn (Collection.featureViews FEATURE_VIEWS) s1 = Except.ok s2 →
      applyFn (Collection.featureServices FEATURE_SERVICES) s2 = Except.error e →
      apply_feature_definitions applyFn store =
        ⟨[Collection.entities ENTITIES, Collection.featureViews FEATURE_VIEWS,
          Collection.featureServices FEATURE_SERVICES],
         ["Applying entities...", "Applying feature views...",
          "Applying feature services..."], Except.error e⟩) := by
  refine ⟨fun e h1 => ?_, fun s1 e h1 h2 => ?_, fun s1 s2 e h1 h2 h3 => ?_⟩ <;>
    simp [apply_feature_definitions, *]

/-- Witness for C5: a store that fails on the feature-view collection makes no
third call and surfaces its error `3` unchanged. -/
theorem apply_error_propagation_witness :
    apply_feature_definitions failOnViewsStore () =
      ⟨[Collection.entities ENTITIES, Collection.featureViews FEATURE_VIEWS],
       ["Applying entities...", "Applying feature views..."], Except.error 3⟩ :=
  (apply_error_propagation failOnViewsStore ()).2.1 () 3 rfl rfl

/-- C6: no `store.apply` call made by `apply_feature_definitions` ever passes
the `DATA_SOURCES` collection, for any store handle and any outcome. -/
theorem data_sources_never_applied {σ ε : Type} (applyFn : Collection → σ → Except ε σ)
    (store : σ) (c : Collection) (h : c ∈ (apply_feature_definitions applyFn store).calls) :
    ∀ ds : List DataSource, c ≠ Collection.dataSources ds := by
  intro ds heq
  subst heq
  unfold apply_feature_definitions at h
  cases h1 : applyFn (Collection.entities ENTITIES) store with
  | error e => simp [h1] at h
  | ok s1 =>
    cases h2 : applyFn (Collection.featureViews FEATURE_VIEWS) s1 with
    | error e => simp [h1, h2] at h
    | ok s2 =>
      cases h3 : applyFn (Collection.featureServices FEATURE_SERVICES) s2 with
      | error e => simp [h1, h2, h3] at h
      | ok s3 => simp [h1, h2, h3] at h

/-- Witness for C6: in a successful run the first call argument is the entity
collection, not the data-source collection. -/
theorem data_sources_never_applied_witness :
    Collection.entities ENTITIES ≠ Collection.dataSources DATA_SOURCES :=
  data_sources_never_applied okStore () (Collection.entities ENTITIES)
    (List.Mem.head _) DATA_SOURCES

/-- C7: when run as `__main__` the module builds a store rooted at the current
working directory (repo path `"."`), runs `apply_feature_definitions` on it,
and on success prints the summary reporting 4 entities, 6 feature views,
4 feature services and 5 data sources, in that order. -/
theorem main_summary {σ ε : Type} (mkStore : String → σ)
    (applyFn : Collection → σ → Except ε σ)
    (h : ∃ s, (mainBlock mkStore applyFn).result = Except.ok s) :
    (mainBlock mkStore applyFn).repo_path = "." ∧
    (mainBlock mkStore applyFn).calls =
      (apply_feature_definitions applyFn (mkStore ".")).calls ∧
    (mainBlock mkStore applyFn).output =
      ["Applying entities...", "Applying feature views...",
       "Applying feature services...", "Feature definitions applied successfully!",
       "\nFeature Store Summary:", "Entities: 4", "Feature Views: 6",
       "Feature Services: 4", "Data Sources: 5"] := by
  obtain ⟨s, hs⟩ := h
  unfold mainBlock at hs ⊢
  unfold apply_feature_definitions at hs ⊢
  cases h1 : applyFn (Collection.entities ENTITIES) (mkStore ".") with
  | error e => simp [h1] at hs
  | ok s1 =>
    cases h2 : applyFn (Collection.featureViews FEATURE_VIEWS) s1 with
    | error e => simp [h1, h2] at hs
    | ok s2 =>
      cases h3 : applyFn (Collection.featureServices FEATURE_SERVICES) s2 with
      | error e => simp [h1, h2, h3] at hs
      | ok s3 =>
        refine ⟨by simp [h1, h2, h3], by simp [h1, h2, h3], ?_⟩
        simp only [h1, h2, h3]
        decide

/-- Witness for C7: the mock store run succeeds and the summary is printed. -/
theorem main_summary_witness :
    (mainBlock (fun _ => ()) okStore).repo_path = "." ∧
    (mainBlock (fun _ => ()) okStore).calls =
      (apply_feature_definitions okStore ((fun _ => ()) ".")).calls ∧
    (mainBlock (fun _ => ()) okStore).output =
      ["Applying entities...", "Applying feature views...",
       "Applying feature services...", "Feature definitions applied successfully!",
       "\nFeature Store Summary:", "Entities: 4", "Feature Views: 6",
       "Feature Services: 4", "Data Sources: 5"] :=
  main_summary (fun _ => ()) okStore ⟨(), rfl⟩

/-- C8: every feature view in `FEATURE_VIEWS` has a nonnegative ttl and its
batch source matches exactly one data source of the registry. -/
theorem view_ttl_and_batch_source :
    ∀ fv ∈ FEATURE_VIEWS, 0 ≤ fv.ttl ∧ List.count fv.batch_source DATA_SOURCES = 1 := by
  decide

/-- Witness for C8: `user_engagement_features` has ttl 7 days ≥ 0 and its batch
source occurs exactly once in `DATA_SOURCES`. -/
theorem view_ttl_and_batch_source_witness :
    0 ≤ user_engagement_features.ttl ∧
    List.count user_engagement_features.batch_source DATA_SOURCES = 1 :=
  view_ttl_and_batch_source user_engagement_features (List.Mem.head _)

/-- C9: every collection `apply_feature_definitions` hands to the store is one
of the registry constants `ENTITIES`, `FEATURE_VIEWS`, `FEATURE_SERVICES`
exactly as declared at module load: the function passes the registries through
unmutated. -/
theorem registries_unmutated {σ ε : Type} (applyFn : Collection → σ → Except ε σ)
    (store : σ) (c : Collection) (h : c ∈ (apply_feature_definitions applyFn store).calls) :
    c = Collection.entities ENTITIES ∨ c = Collection.featureViews FEATURE_VIEWS ∨
      c = Collection.featureServices FEATURE_SERVICES := by
  unfold apply_feature_definitions at h
  cases h1 : applyFn (Collection.entities ENTITIES) store with
  | error e => simp [h1] at h; exact Or.inl h
  | ok s1 =>
    cases h2 : applyFn (Collection.featureViews FEATURE_VIEWS) s1 with
    | error e => simp [h1, h2] at h; tauto
    | ok s2 =>
      cases h3 : applyFn (Collection.featureServices FEATURE_SERVICES) s2 with
      | error e => simp [h1, h2, h3] at h; tauto
      | ok s3 => simp [h1, h2, h3] at h; tauto

/-- Witness for C9: the second call of the mock run passes exactly the
`FEATURE_VIEWS` registry constant. -/
theorem registries_unmutated_witness :
    Collection.featureViews FEATURE_VIEWS = Collection.entities ENTITIES ∨
    Collection.featureViews FEATURE_VIEWS = Collection.featureViews FEATURE_VIEWS ∨
    Collection.featureViews FEATURE_VIEWS = Collection.featureServices FEATURE_SERVICES :=
  registries_unmutated okStore () (Collection.featureViews FEATURE_VIEWS)
    (List.Mem.tail _ (List.Mem.head _))

/-- C10: within every feature view of `FEATURE_VIEWS`, the feature names are
pairwise distinct. -/
theorem view_feature_names_unique :
    ∀ fv ∈ FEATURE_VIEWS, (List.map Feature.name fv.features).Nodup := by decide

/-- Witness for C10: the feature names of `user_engagement_features` are
pairwise distinct. -/
theorem view_feature_names_unique_witness :
    (List.map Feature.name user_engagement_features.features).Nodup :=
  view_feature_names_unique user_engagement_features (List.Mem.head _)

end FeatureDefinitions
